import Mathlib

/-
  Verification development for the DeepResearchAI repository.

  The Python sources are shallowly embedded: Python dicts with a fixed key
  set become structures, dict values that may be absent become Option
  fields, a Python `list` becomes `List`, exceptions raised by a callee
  become `Except String` parameters of the model of the caller, and external
  collaborators (search API, web fetch, LLM calls) become function
  parameters so that theorems quantify over every behaviour the
  collaborator can exhibit.
-/

namespace DeepResearch

/-- A source reference as produced by the research agent:
`{"url": ..., "title": ...}`. -/
structure SourceRef where
  url : String
  title : String
deriving Repr, DecidableEq

/-- The Python substring test `sub in s`. -/
def pyIn (sub s : String) : Bool :=
  decide (List.IsInfix sub.toList s.toList)

/-! ## `deep_research/workflow.py` — stage names (`class WorkflowStep`) -/

namespace WorkflowStep

def RESEARCH : String := "research"

def DRAFT_ANSWER : String := "draft_answer_node"

def FACT_CHECK : String := "fact_check_node"

def FINALIZE : String := "finalize"

def END : String := "end"

def ERROR : String := "error"

end WorkflowStep

/-- A generic answer-shaped dict (`draft_answer` / `final_answer` slots of
the workflow state).  The Python code reads it with
`d.get("answer", "No answer generated.")` and `d.get("sources", [])`,
so both keys may be absent. -/
structure Payload where
  answer : Option String
  sources : Option (List SourceRef)
deriving Repr, DecidableEq

/-- The `ResearchState` TypedDict of `workflow.py`.  A slot holding the
empty dict `{}` (falsy in Python) is modelled as `none`. -/
structure ResearchState where
  question : String
  research_results : Option Payload
  draft_answer : Option Payload
  fact_check : Option Payload
  final_answer : Option Payload
  current_step : String
  errors : List String
deriving Repr, DecidableEq

/-- The four pipeline stages whose node wrappers
(`_conduct_research`, `_draft_answer`, `_fact_check`, `_finalize_answer`)
share the same try/except shape. -/
inductive Stage where
  | research
  | draftAnswer
  | factCheck
  | finalizeAnswer
deriving Repr, DecidableEq

/-- The error-message prefix each node wrapper uses:
`f"Error in research step: {str(e)}"` and so on. -/
def stageErrorPrefix : Stage → String
  | .research => "Error in research step: "
  | .draftAnswer => "Error in draft answer step: "
  | .factCheck => "Error in fact check step: "
  | .finalizeAnswer => "Error in finalize answer step: "

/-- The `current_step` value each node writes on success. -/
def stageSuccessor : Stage → String
  | .research => WorkflowStep.DRAFT_ANSWER
  | .draftAnswer => WorkflowStep.FACT_CHECK
  | .factCheck => WorkflowStep.FINALIZE
  | .finalizeAnswer => WorkflowStep.END

/-- The state slot each node writes on success
(`state["research_results"] = ...` etc.). -/
def setStageSlot : Stage → ResearchState → Payload → ResearchState
  | .research, st, v => { st with research_results := some v }
  | .draftAnswer, st, v => { st with draft_answer := some v }
  | .factCheck, st, v => { st with fact_check := some v }
  | .finalizeAnswer, st, v => { st with final_answer := some v }

/-- One stage node of `DeepResearchWorkflow`.  The stage body (the agent
call inside the `try`) is passed as an `Except` value: `.ok v` is a
normal return, `.error e` is a raised exception with text `e`.
On success the node stores the result and advances `current_step`; on an
exception it appends the formatted error text to `state["errors"]` and
sets `current_step` to `WorkflowStep.ERROR`.  (The guard
`if "errors" not in new_state` in the source is vacuous here because the
TypedDict always carries the key.) -/
def runStageNode (stage : Stage) (body : Except String Payload)
    (st : ResearchState) : ResearchState :=
  match body with
  | .ok v => { setStageSlot stage st v with current_step := stageSuccessor stage }
  | .error e =>
      { st with errors := st.errors ++ [stageErrorPrefix stage ++ e],
                current_step := WorkflowStep.ERROR }

/-! ## `_determine_next_step_after_error` -/

/-- The `step_sequence` list of `_determine_next_step_after_error`. -/
def stepSequence : List String :=
  [WorkflowStep.RESEARCH, WorkflowStep.DRAFT_ANSWER, WorkflowStep.FACT_CHECK,
   WorkflowStep.FINALIZE, WorkflowStep.END]

/-- The Python `list.index`: `some i` for the first index holding `s`,
`none` when `s` is absent (where CPython raises `ValueError`). -/
def pyListIndex : List String → String → Option Nat
  | [], _ => none
  | x :: xs, s => if x = s then some 0 else (pyListIndex xs s).map (· + 1)

/-- `DeepResearchWorkflow._determine_next_step_after_error`: look the
current step up in `step_sequence` and return the following entry, `END`
past the end of the sequence, and `RESEARCH` when the lookup raises
`ValueError` (step not in the sequence). -/
def determineNextStepAfterError (st : ResearchState) : String :=
  match pyListIndex stepSequence st.current_step with
  | some i =>
      if i + 1 < stepSequence.length then stepSequence.getD (i + 1) WorkflowStep.END
      else WorkflowStep.END
  | none => WorkflowStep.RESEARCH

/-! ## `DeepResearchWorkflow.run` — result extraction on the finishing state

The graph execution itself is LangGraph library code; what `run` does with
the finishing state (lines 371–392 of `workflow.py`) is embedded below. -/

/-- The result record `run` (and the web layer) hands around.  `errors`
is `some _` only for the branches whose Python dict carries an `"errors"`
key; `id` is filled in later by the web layer. -/
structure ResultRecord where
  question : String
  answer : String
  sources : List SourceRef
  status : String
  errors : Option (List String)
  id : Option String
deriving Repr, DecidableEq

/-- Result extraction of `DeepResearchWorkflow.run`: `final_answer` if
non-empty (status `"success"`), else `draft_answer` (status `"partial"`),
else a failure record carrying the accumulated errors
(status `"failed"`). -/
def extractRunResult (question : String) (finalState : ResearchState) : ResultRecord :=
  match finalState.final_answer with
  | some fa =>
      { question := question, answer := fa.answer.getD "No answer generated.",
        sources := fa.sources.getD [], status := "success", errors := none, id := none }
  | none =>
    match finalState.draft_answer with
    | some da =>
        { question := question, answer := da.answer.getD "No answer generated.",
          sources := da.sources.getD [], status := "partial", errors := none, id := none }
    | none =>
        { question := question, answer := "Failed to generate an answer.",
          sources := [], status := "failed", errors := some finalState.errors, id := none }

/-! ## `deep_research/utils/search_utils.py` -/

/-- `generate_search_queries(question, num_queries=3)`: build the fixed
three-element list of query variations and return the slice
`queries[:num_queries]`. -/
def generate_search_queries (question : String) (numQueries : Nat := 3) : List String :=
  [question,
   "latest information about " ++ question,
   "recent developments in " ++ question].take numQueries

/-! ## `deep_research/utils/web_utils.py` — `split_content`

Indices are modelled as `Nat`; on every input considered below all the
index arithmetic of the source stays non-negative, so this matches
the CPython slicing semantics on those inputs. -/

/-- The Python slice `s[a:b]` on an already-listed string: characters `a ≤ i < b`
with out-of-range bounds clamped. -/
def pySlice (s : String) (a b : Nat) : String :=
  String.mk ((s.toList.take b).drop a)

/-- The Python `str.rfind(sub)`: the largest index at which `sub` occurs,
`none` where CPython returns `-1`. -/
def listRfind (s sub : List Char) : Option Nat :=
  ((List.range (s.length + 1)).filter (fun i => sub.isPrefixOf (s.drop i))).getLast?

/-- The `end`-adjustment inside the loop of `split_content` (run only when
`start > 0` and `end < len(content)`): move `end` back to just after the
last sentence break (a period, question mark or exclamation point followed by a space) in the current window, and when
no break was found (detected in the source by
`end == start + chunk_size`) fall back to just after the last newline. -/
def adjustEnd (content : String) (chunkSize start e0 : Nat) : Nat :=
  let window := (pySlice content start e0).toList
  let e1 :=
    match listRfind window ". ".toList with
    | some i => start + i + 2
    | none =>
      match listRfind window "? ".toList with
      | some i => start + i + 2
      | none =>
        match listRfind window "! ".toList with
        | some i => start + i + 2
        | none => e0
  if e1 = start + chunkSize then
    match listRfind window "\n".toList with
    | some i => start + i + 1
    | none => e1
  else e1

/-- One iteration of the `while start < len(content)` loop of `split_content`:
compute the (possibly adjusted) chunk end, emit the chunk
`content[start:end]`, and step `start` to `end - chunk_overlap` (or to
the end of the content when the chunk reached it). -/
def splitStep (content : String) (chunkSize overlap start : Nat) : String × Nat :=
  let n := content.length
  let e0 := min (start + chunkSize) n
  let e := if 0 < start ∧ e0 < n then adjustEnd content chunkSize start e0 else e0
  (pySlice content start e, if e < n then e - overlap else n)

/-- `split_content`, with an explicit iteration budget: `none` means the
loop did not finish within `fuel` iterations.  (The source has no budget;
it loops until — if ever — `start` reaches the end of the content.) -/
def splitContentFuel (content : String) (chunkSize overlap : Nat) :
    Nat → Nat → List String → Option (List String)
  | fuel, start, acc =>
    if start < content.length then
      match fuel with
      | 0 => none
      | fuel' + 1 =>
          let s := splitStep content chunkSize overlap start
          splitContentFuel content chunkSize overlap fuel' s.2 (acc ++ [s.1])
    else some acc

/-- `split_content(content, chunk_size=4000, chunk_overlap=200)` run with
an iteration budget of `fuel`. -/
def split_content (content : String) (chunkSize : Nat := 4000)
    (overlap : Nat := 200) (fuel : Nat := 0) : Option (List String) :=
  splitContentFuel content chunkSize overlap fuel 0 []

/-! ## Agent-level dicts (`research_agent.py`, `answer_agent.py`) -/

/-- The dict `extract_content` returns: URL, page title and (truncated)
page text, or an error marker (`title = "Error"`, error text as content). -/
structure ExtractResult where
  url : String
  title : String
  content : String
deriving Repr, DecidableEq

/-- The dict `ResearchAgent.conduct_research` returns. -/
structure ResearchResults where
  question : String
  summary : String
  sources : List SourceRef
  raw_content : List ExtractResult
deriving Repr, DecidableEq

/-- The dict `AnswerAgent.draft_answer` (and `finalize_answer`) returns:
all three keys are always present. -/
structure DraftDict where
  question : String
  answer : String
  sources : List SourceRef
deriving Repr, DecidableEq

/-- The dict `AnswerAgent.fact_check` returns.  The `fact_check` key is
absent (`none`) when the function passes the draft through unchanged. -/
structure FactCheckedDict where
  question : String
  answer : String
  fact_check : Option String
  sources : List SourceRef
deriving Repr, DecidableEq

/-! ## `web/app.py` — the async worker `run_research_with_updates` -/

/-- A progress-update dict put on the queue of a task. -/
structure ProgressUpdate where
  status : String
  step : String
  message : String
  progress : Nat
  results : Option ResultRecord
deriving Repr, DecidableEq

/-- An observable action of the worker, in order: a
`progress_queue.put(...)` or a call of `save_research_to_history`. -/
inductive WorkerEvent where
  | put (u : ProgressUpdate)
  | saveHistory (question answer : String) (sources : List SourceRef)
deriving Repr, DecidableEq

/-- An `"in_progress"` checkpoint update. -/
def inProgressUpdate (stepName msg : String) (progress : Nat) : ProgressUpdate :=
  { status := "in_progress", step := stepName, message := msg,
    progress := progress, results := none }

/-- The terminal update of the success path of the worker. -/
def completedUpdate (results : ResultRecord) : ProgressUpdate :=
  { status := "completed", step := "completed",
    message := "Research completed successfully!", progress := 100,
    results := some results }

/-- The terminal update put by the `except` clause of the worker, carrying the
degraded error result. -/
def errorUpdate (question e : String) : ProgressUpdate :=
  { status := "error", step := "error", message := "Error: " ++ e,
    progress := 100,
    results := some { question := question,
                      answer := "An error occurred during research: " ++ e,
                      sources := [], status := "error",
                      errors := some [e], id := none } }

/-- The collaborators `run_research_with_updates` calls.  Each call is an
`Except` so that theorems cover both a normal return and a raised
exception at every call site. -/
structure WebEnv where
  initWorkflow : Except String Unit
  runWorkflow : String → Except String ResultRecord
  initAgents : Except String Unit
  conduct : String → Except String ResearchResults
  draft : ResearchResults → Except String DraftDict
  factCheck : DraftDict → ResearchResults → Except String FactCheckedDict
  finalizeCall : FactCheckedDict → Except String DraftDict
  saveHistory : String → String → List SourceRef → Except String String

/-- The tail the two branches share (`app.py:205-239`): call
`save_research_to_history(question, results["answer"], results["sources"])`,
then put the terminal update — `completed` carrying the id-augmented
results, or the `error` update of the `except` clause when the save raised. -/
def finishAndSave (env : WebEnv) (question : String) (prior : List WorkerEvent)
    (results : ResultRecord) : List WorkerEvent :=
  let call := WorkerEvent.saveHistory question results.answer results.sources
  match env.saveHistory question results.answer results.sources with
  | .error e => prior ++ [call, .put (errorUpdate question e)]
  | .ok rid => prior ++ [call, .put (completedUpdate { results with id := some rid })]

/-- `run_research_with_updates(question, use_langgraph, task_id,
progress_queue)` as the ordered list of its observable actions.  Any
exception raised by a collaborator lands in the `except` clause, which
puts the single terminal `error` update. -/
def runResearchWithUpdates (env : WebEnv) (question : String)
    (useLanggraph : Bool) : List WorkerEvent :=
  let u1 := WorkerEvent.put
    (inProgressUpdate "starting" "Starting research process..." 5)
  if useLanggraph then
    let u2 := WorkerEvent.put
      (inProgressUpdate "initializing" "Initializing LangGraph workflow..." 10)
    match env.initWorkflow with
    | .error e => [u1, u2, .put (errorUpdate question e)]
    | .ok _ =>
      let u3 := WorkerEvent.put
        (inProgressUpdate "researching" "Conducting research with LangGraph..." 20)
      match env.runWorkflow question with
      | .error e => [u1, u2, u3, .put (errorUpdate question e)]
      | .ok results => finishAndSave env question [u1, u2, u3] results
  else
    let u2 := WorkerEvent.put
      (inProgressUpdate "initializing" "Initializing research agents..." 10)
    match env.initAgents with
    | .error e => [u1, u2, .put (errorUpdate question e)]
    | .ok _ =>
      let u3 := WorkerEvent.put
        (inProgressUpdate "searching"
          "Generating search queries and performing web searches..." 20)
      let u4 := WorkerEvent.put
        (inProgressUpdate "extracting" "Extracting content from web pages..." 40)
      match env.conduct question with
      | .error e => [u1, u2, u3, u4, .put (errorUpdate question e)]
      | .ok rr =>
        let u5 := WorkerEvent.put
          (inProgressUpdate "drafting"
            "Drafting initial answer based on research findings..." 60)
        match env.draft rr with
        | .error e => [u1, u2, u3, u4, u5, .put (errorUpdate question e)]
        | .ok da =>
          let u6 := WorkerEvent.put
            (inProgressUpdate "fact_checking"
              "Fact-checking the drafted answer against sources..." 80)
          match env.factCheck da rr with
          | .error e => [u1, u2, u3, u4, u5, u6, .put (errorUpdate question e)]
          | .ok fc =>
            let u7 := WorkerEvent.put
              (inProgressUpdate "finalizing"
                "Finalizing the answer with citations..." 90)
            match env.finalizeCall fc with
            | .error e => [u1, u2, u3, u4, u5, u6, u7, .put (errorUpdate question e)]
            | .ok fa =>
                finishAndSave env question [u1, u2, u3, u4, u5, u6, u7]
                  { question := question, answer := fa.answer,
                    sources := fa.sources, status := "success",
                    errors := none, id := none }

/-- The updates a worker trace puts on the queue, in order. -/
def putsOf (evs : List WorkerEvent) : List ProgressUpdate :=
  evs.filterMap fun e =>
    match e with
    | .put u => some u
    | .saveHistory _ _ _ => none

/-- An update with a terminal status. -/
def isTerminal (u : ProgressUpdate) : Bool :=
  u.status == "completed" || u.status == "error"

/-- A history-store call. -/
def isSaveCall : WorkerEvent → Bool
  | .saveHistory _ _ _ => true
  | .put _ => false

/-! ## `research_agent.py` / `answer_agent.py` / `simple_main.py`

The search API, page fetching and the LLM are external collaborators and
appear as function parameters.  `search_web` and `extract_content` catch
their own exceptions and return plain data, so they are total functions
here; each LLM invocation sits inside a `try` of its caller, so it is an
`Except` and both outcomes are covered. -/

/-- A search hit from the Tavily API.  Only the `"url"` key is read by
the repository (`if "url" in result ...`), and it may be absent. -/
structure SearchResult where
  url : Option String
deriving Repr, DecidableEq

/-- The acceptance test of `conduct_research` for an extracted page:
`if content["content"] and "Error" not in content["title"]`. -/
def acceptExtract (c : ExtractResult) : Bool :=
  c.content ≠ "" && !(pyIn "Error" c.title)

/-- Insertion into `unique_urls` (`if result["url"] not in unique_urls`). -/
def insertUniqueUrl (seen : List String) (u : String) : List String :=
  if u ∈ seen then seen else seen ++ [u]

/-- The deduplicated URLs of the collected search results.  CPython
enumerates a `set` in an unspecified order; first-insertion order is one
such enumeration, and no theorem below depends on which order is used. -/
def uniqueUrls (results : List SearchResult) : List String :=
  results.foldl
    (fun acc r =>
      match r.url with
      | some u => insertUniqueUrl acc u
      | none => acc)
    []

/-- The extraction loop body of `conduct_research`: fetch the URL and, if
the page was accepted, append the content dict to `content_list` and
`{"url": url, "title": content["title"]}` to `sources`. -/
def collectStep (extract : String → ExtractResult)
    (acc : List ExtractResult × List SourceRef) (url : String) :
    List ExtractResult × List SourceRef :=
  let content := extract url
  if acceptExtract content then
    (acc.1 ++ [content], acc.2 ++ [{ url := url, title := content.title }])
  else acc

/-- `ResearchAgent.conduct_research(question)`: generate queries, search
each, deduplicate the result URLs, extract at most 5 of them, and
summarize the accepted content — or fall back to the fixed
`"No relevant content found."` marker when nothing was accepted.
`summarize` models `summarize_content`, which catches its own exceptions
and always returns a string. -/
def conduct_research (searchWeb : String → List SearchResult)
    (extract : String → ExtractResult)
    (summarize : List ExtractResult → String → String)
    (question : String) : ResearchResults :=
  let queries := generate_search_queries question
  let allResults := (queries.map searchWeb).flatten
  let urls := (uniqueUrls allResults).take 5
  let pair := urls.foldl (collectStep extract) ([], [])
  let summary :=
    if pair.1 ≠ [] then summarize pair.1 question else "No relevant content found."
  { question := question, summary := summary, sources := pair.2,
    raw_content := pair.1 }

/-- The enumerated source lines both answer-agent prompts build:
`f"{i}. {title} - {url}\n"` for each source, counting from 1. -/
def sourcesLines : Nat → List SourceRef → String
  | _, [] => ""
  | i, s :: rest =>
      toString i ++ ". " ++ s.title ++ " - " ++ s.url ++ "\n" ++
        sourcesLines (i + 1) rest

/-- `draft_answer` falls back to `"No specific sources available."` when
the formatted source text is empty. -/
def sourcesTextOrDefault (srcs : List SourceRef) : String :=
  let t := sourcesLines 1 srcs
  if t = "" then "No specific sources available." else t

/-- `AnswerAgent.draft_answer(research_results)`.  `llm` takes the
question, the research summary and the formatted source text. -/
def draft_answer (llm : String → String → String → Except String String)
    (rr : ResearchResults) : DraftDict :=
  if rr.summary = "" then
    { question := rr.question,
      answer := "Insufficient research data to provide an answer.",
      sources := rr.sources }
  else
    match llm rr.question rr.summary (sourcesTextOrDefault rr.sources) with
    | .ok c => { question := rr.question, answer := c, sources := rr.sources }
    | .error e =>
        { question := rr.question, answer := "Error in answer drafting: " ++ e,
          sources := rr.sources }

/-- The Python truncation `s[:n]`. -/
def pyTruncate (s : String) (n : Nat) : String :=
  String.mk (s.toList.take n)

/-- The source-material text `fact_check` builds from `raw_content`. -/
def sourceContentText (raw : List ExtractResult) : String :=
  String.intercalate "\n\n---\n\n"
    (raw.map fun c =>
      "Source: " ++ c.title ++ " (" ++ c.url ++ ")\n\n" ++ pyTruncate c.content 5000)

/-- `AnswerAgent.fact_check(draft_answer, research_results)`: with an
empty answer or no raw content it returns the draft unchanged (so the
result dict has no `"fact_check"` key, modelled as `none`); otherwise it
asks the LLM and stores the verdict (or the caught error text). -/
def fact_check (llm : String → String → String → Except String String)
    (draft : DraftDict) (rr : ResearchResults) : FactCheckedDict :=
  if draft.answer = "" ∨ rr.raw_content = [] then
    { question := draft.question, answer := draft.answer, fact_check := none,
      sources := draft.sources }
  else
    match llm draft.question draft.answer (sourceContentText rr.raw_content) with
    | .ok c =>
        { question := draft.question, answer := draft.answer,
          fact_check := some c, sources := draft.sources }
    | .error e =>
        { question := draft.question, answer := draft.answer,
          fact_check := some ("Error in fact checking: " ++ e),
          sources := draft.sources }

/-- `AnswerAgent.finalize_answer(fact_checked_answer)`: with no fact-check
text (missing key reads as `""`) or an error marker in it, return the
draft as the final answer; otherwise ask the LLM for the revision,
falling back to the draft when that raises. -/
def finalize_answer (llm : String → String → String → String → Except String String)
    (fcd : FactCheckedDict) : DraftDict :=
  let fc := fcd.fact_check.getD ""
  if pyIn "Error" fc || fc = "" then
    { question := fcd.question, answer := fcd.answer, sources := fcd.sources }
  else
    match llm fcd.question fcd.answer fc (sourcesLines 1 fcd.sources) with
    | .ok c => { question := fcd.question, answer := c, sources := fcd.sources }
    | .error _ =>
        { question := fcd.question, answer := fcd.answer, sources := fcd.sources }

/-- `simple_main.run_research(question)`: run the four stages directly and
wrap the final answer with status `"success"`.  The agent calls above are
total (each catches its own LLM failures), so the catch-all `except` of
`run_research` is not reached. -/
def runResearchSimple (searchWeb : String → List SearchResult)
    (extract : String → ExtractResult)
    (summarize : List ExtractResult → String → String)
    (draftLLM : String → String → String → Except String String)
    (fcLLM : String → String → String → Except String String)
    (finLLM : String → String → String → String → Except String String)
    (question : String) : ResultRecord :=
  let rr := conduct_research searchWeb extract summarize question
  let da := draft_answer draftLLM rr
  let fcd := fact_check fcLLM da rr
  let fa := finalize_answer finLLM fcd
  { question := question, answer := fa.answer, sources := fa.sources,
    status := "success", errors := none, id := none }

/-! ## `web/app.py` — the SSE route `research_progress` and its generator

Inside `generate`, the local assignment `queue = task["queue"]` shadows
the imported `queue` module, so the clause `except queue.Empty:` looks
`Empty` up on the `Queue` instance.  A `Queue` has no such attribute:
when `queue.get` times out, evaluating the except clause raises
`AttributeError`, which the outer `except Exception` turns into an error
event before breaking out of the loop.  The embedding below follows that
actual control flow. -/

/-- One blocking read of the task queue with the 0.5 s timeout: either an
update arrived in time or the timeout expired. -/
inductive QueueRead where
  | timeout
  | upd (u : ProgressUpdate)
deriving Repr, DecidableEq

/-- A server-sent event yielded by `generate`. -/
inductive SSEEvent where
  | connected
  | dataEvent (u : ProgressUpdate)
  | heartbeat
  | streamError (msg : String)
deriving Repr, DecidableEq

/-- The text of the `AttributeError` the shadowed `queue.Empty` lookup
raises (CPython sets the class and attribute names in single quotes,
omitted here). -/
def queueShadowError : String :=
  "Queue object has no attribute Empty"

/-- The task registry `research_tasks`, reduced to its key set. -/
abbrev TaskRegistry := Finset String

/-- The polling loop of `generate`, processing one queue read per
iteration: a data event per update, deregistration and stop at a
terminal update — and, on a timeout, the error event of the shadowing
`AttributeError` and stop (the heartbeat branch is unreachable). -/
def generateLoop (taskId : String) (reg : TaskRegistry) :
    List QueueRead → List SSEEvent × TaskRegistry
  | [] => ([], reg)
  | .timeout :: _ => ([.streamError queueShadowError], reg)
  | .upd u :: rest =>
      if isTerminal u then ([.dataEvent u], reg.erase taskId)
      else
        (.dataEvent u :: (generateLoop taskId reg rest).1,
         (generateLoop taskId reg rest).2)

/-- The whole generator body: the initial `connected` event, then the
polling loop. -/
def generate (taskId : String) (reg : TaskRegistry) (reads : List QueueRead) :
    List SSEEvent × TaskRegistry :=
  (.connected :: (generateLoop taskId reg reads).1,
   (generateLoop taskId reg reads).2)

/-- The HTTP response of the `research_progress` route. -/
inductive ProgressResponse where
  | notFound
  | sse (events : List SSEEvent)
deriving Repr, DecidableEq

/-- `research_progress(task_id)`: a not-found (404) response for an
unregistered task, otherwise the event stream (with the registry as it
stands when the stream ends). -/
def researchProgress (taskId : String) (reg : TaskRegistry)
    (reads : List QueueRead) : ProgressResponse × TaskRegistry :=
  if taskId ∈ reg then
    (.sse (generate taskId reg reads).1, (generate taskId reg reads).2)
  else (.notFound, reg)

/-- A content string on which the loop of `split_content` gets stuck: with
`chunk_size = 10` and `chunk_overlap = 5`, once `start` reaches 2 the
sentence-break adjustment pins `end` to 7 (just after the `". "` at
index 5), and `start = end - chunk_overlap = 2` again, forever. -/
def badContent : String := "abcde. hijklmnopqrst"

/-- With no iterations left, a loop whose `start` is still inside the
content has produced no result. -/
theorem splitContentFuel_zero_of_lt {c : String} {cs ov start : Nat}
    {acc : List String} (h : start < c.length) :
    splitContentFuel c cs ov 0 start acc = none := by
  simp only [splitContentFuel]
  rw [if_pos h]

/-- Unfolding one loop iteration while `start` is inside the content. -/
theorem splitContentFuel_step (c : String) (cs ov f start : Nat)
    (acc : List String) (h : start < c.length) :
    splitContentFuel c cs ov (f + 1) start acc =
      splitContentFuel c cs ov f (splitStep c cs ov start).2
        (acc ++ [(splitStep c cs ov start).1]) := by
  simp only [splitContentFuel]
  rw [if_pos h]

/-- `pyListIndex` finds no index for a string absent from the list. -/
theorem pyListIndex_eq_none_of_not_mem {l : List String} {s : String}
    (h : s ∉ l) : pyListIndex l s = none := by
  induction l with
  | nil => rfl
  | cons x xs ih =>
      rw [List.mem_cons, not_or] at h
      have hx : ¬(x = s) := fun hx => h.1 hx.symm
      simp [pyListIndex, hx, ih h.2]

/-- C3: if a stage body raises, the node returns the input state with
exactly the formatted error text appended to `errors`, `current_step` set
to the `ERROR` tag, and every stage-result slot (and the question)
unchanged. -/
theorem stage_exception_appends_error_and_routes_to_error
    (stage : Stage) (st : ResearchState) (e : String) :
    (runStageNode stage (Except.error e) st).errors
        = st.errors ++ [stageErrorPrefix stage ++ e] ∧
    (runStageNode stage (Except.error e) st).current_step = WorkflowStep.ERROR ∧
    (runStageNode stage (Except.error e) st).research_results = st.research_results ∧
    (runStageNode stage (Except.error e) st).draft_answer = st.draft_answer ∧
    (runStageNode stage (Except.error e) st).fact_check = st.fact_check ∧
    (runStageNode stage (Except.error e) st).final_answer = st.final_answer ∧
    (runStageNode stage (Except.error e) st).question = st.question := by
  cases stage <;> simp [runStageNode]

/-- C4: the error router advances each stage to its immediate successor
in the fixed sequence, maps anything outside the sequence back to
`research`, and never returns the failed stage itself. -/
theorem error_router_is_pass_through (st : ResearchState) :
    (st.current_step = WorkflowStep.RESEARCH →
        determineNextStepAfterError st = WorkflowStep.DRAFT_ANSWER) ∧
    (st.current_step = WorkflowStep.DRAFT_ANSWER →
        determineNextStepAfterError st = WorkflowStep.FACT_CHECK) ∧
    (st.current_step = WorkflowStep.FACT_CHECK →
        determineNextStepAfterError st = WorkflowStep.FINALIZE) ∧
    (st.current_step = WorkflowStep.FINALIZE →
        determineNextStepAfterError st = WorkflowStep.END) ∧
    (st.current_step ∉ stepSequence →
        determineNextStepAfterError st = WorkflowStep.RESEARCH) ∧
    (st.current_step ≠ WorkflowStep.END →
        determineNextStepAfterError st ≠ st.current_step) := by
  refine ⟨?_, ?_, ?_, ?_, ?_, ?_⟩
  · intro h
    simp [determineNextStepAfterError, h, pyListIndex, stepSequence,
      WorkflowStep.RESEARCH, WorkflowStep.DRAFT_ANSWER, WorkflowStep.FACT_CHECK,
      WorkflowStep.FINALIZE, WorkflowStep.END]
  · intro h
    simp [determineNextStepAfterError, h, pyListIndex, stepSequence,
      WorkflowStep.RESEARCH, WorkflowStep.DRAFT_ANSWER, WorkflowStep.FACT_CHECK,
      WorkflowStep.FINALIZE, WorkflowStep.END]
  · intro h
    simp [determineNextStepAfterError, h, pyListIndex, stepSequence,
      WorkflowStep.RESEARCH, WorkflowStep.DRAFT_ANSWER, WorkflowStep.FACT_CHECK,
      WorkflowStep.FINALIZE, WorkflowStep.END]
  · intro h
    simp [determineNextStepAfterError, h, pyListIndex, stepSequence,
      WorkflowStep.RESEARCH, WorkflowStep.DRAFT_ANSWER, WorkflowStep.FACT_CHECK,
      WorkflowStep.FINALIZE, WorkflowStep.END]
  · intro h
    simp [determineNextStepAfterError, pyListIndex_eq_none_of_not_mem h]
  · intro hne
    by_cases hmem : st.current_step ∈ stepSequence
    · simp only [stepSequence, List.mem_cons, List.not_mem_nil, or_false] at hmem
      rcases hmem with h | h | h | h | h
      · have hf : determineNextStepAfterError st = WorkflowStep.DRAFT_ANSWER := by
          simp [determineNextStepAfterError, h, pyListIndex, stepSequence,
            WorkflowStep.RESEARCH, WorkflowStep.DRAFT_ANSWER, WorkflowStep.FACT_CHECK,
            WorkflowStep.FINALIZE, WorkflowStep.END]
        rw [hf, h]
        decide
      · have hf : determineNextStepAfterError st = WorkflowStep.FACT_CHECK := by
          simp [determineNextStepAfterError, h, pyListIndex, stepSequence,
            WorkflowStep.RESEARCH, WorkflowStep.DRAFT_ANSWER, WorkflowStep.FACT_CHECK,
            WorkflowStep.FINALIZE, WorkflowStep.END]
        rw [hf, h]
        decide
      · have hf : determineNextStepAfterError st = WorkflowStep.FINALIZE := by
          simp [determineNextStepAfterError, h, pyListIndex, stepSequence,
            WorkflowStep.RESEARCH, WorkflowStep.DRAFT_ANSWER, WorkflowStep.FACT_CHECK,
            WorkflowStep.FINALIZE, WorkflowStep.END]
        rw [hf, h]
        decide
      · have hf : determineNextStepAfterError st = WorkflowStep.END := by
          simp [determineNextStepAfterError, h, pyListIndex, stepSequence,
            WorkflowStep.RESEARCH, WorkflowStep.DRAFT_ANSWER, WorkflowStep.FACT_CHECK,
            WorkflowStep.FINALIZE, WorkflowStep.END]
        rw [hf, h]
        decide
      · exact absurd h hne
    · have hnone := pyListIndex_eq_none_of_not_mem hmem
      have hf : determineNextStepAfterError st = WorkflowStep.RESEARCH := by
        simp [determineNextStepAfterError, hnone]
      rw [hf]
      intro hc
      apply hmem
      rw [← hc]
      simp [stepSequence]

/-- C4 witness: a `current_step` outside the fixed sequence (here the
`ERROR` tag itself) is routed back to `research`, which differs from the
failed value. -/
theorem error_router_is_pass_through_witness :
    determineNextStepAfterError
        { question := "q", research_results := none, draft_answer := none,
          fact_check := none, final_answer := none,
          current_step := WorkflowStep.ERROR, errors := [] }
      = WorkflowStep.RESEARCH :=
  (error_router_is_pass_through _).2.2.2.2.1 (by decide)

/-- C1: result precedence of `DeepResearchWorkflow.run` on the finishing
state: a non-empty `final_answer` yields status `"success"` with that
answer and its sources; otherwise a non-empty `draft_answer` yields
status `"partial"`; otherwise the record has status `"failed"` with empty
sources and the accumulated errors. -/
theorem run_result_precedence (q : String) (st : ResearchState) :
    (∀ fa, st.final_answer = some fa →
        extractRunResult q st =
          { question := q, answer := fa.answer.getD "No answer generated.",
            sources := fa.sources.getD [], status := "success",
            errors := none, id := none }) ∧
    (∀ da, st.final_answer = none → st.draft_answer = some da →
        extractRunResult q st =
          { question := q, answer := da.answer.getD "No answer generated.",
            sources := da.sources.getD [], status := "partial",
            errors := none, id := none }) ∧
    (st.final_answer = none → st.draft_answer = none →
        extractRunResult q st =
          { question := q, answer := "Failed to generate an answer.",
            sources := [], status := "failed",
            errors := some st.errors, id := none }) := by
  refine ⟨?_, ?_, ?_⟩
  · intro fa hfa
    simp [extractRunResult, hfa]
  · intro da hfa hda
    simp [extractRunResult, hfa, hda]
  · intro hfa hda
    simp [extractRunResult, hfa, hda]

/-- C1 witness: a state whose `final_answer` slot is non-empty yields the
`"success"` record built from it. -/
theorem run_result_precedence_witness :
    extractRunResult "q"
        { question := "q", research_results := none, draft_answer := none,
          fact_check := none, final_answer := some { answer := some "a", sources := some [] },
          current_step := WorkflowStep.END, errors := [] }
      = { question := "q", answer := "a", sources := [], status := "success",
          errors := none, id := none } :=
  (run_result_precedence "q" _).1 { answer := some "a", sources := some [] } rfl

/-- Whether control of `run_research_with_updates` reaches the
`save_research_to_history` call: every collaborator call before it on the
taken branch returned normally. -/
def reachesSave (env : WebEnv) (question : String) (useLanggraph : Bool) : Bool :=
  if useLanggraph then
    match env.initWorkflow with
    | .error _ => false
    | .ok _ =>
      match env.runWorkflow question with
      | .error _ => false
      | .ok _ => true
  else
    match env.initAgents with
    | .error _ => false
    | .ok _ =>
      match env.conduct question with
      | .error _ => false
      | .ok rr =>
        match env.draft rr with
        | .error _ => false
        | .ok da =>
          match env.factCheck da rr with
          | .error _ => false
          | .ok fc =>
            match env.finalizeCall fc with
            | .error _ => false
            | .ok _ => true

/-- A collaborator environment in which every call returns normally. -/
def allOkEnv : WebEnv :=
  { initWorkflow := .ok ()
    runWorkflow := fun q =>
      .ok { question := q, answer := "a", sources := [], status := "success",
            errors := none, id := none }
    initAgents := .ok ()
    conduct := fun q =>
      .ok { question := q, summary := "s", sources := [], raw_content := [] }
    draft := fun rr =>
      .ok { question := rr.question, answer := "a", sources := rr.sources }
    factCheck := fun da _ =>
      .ok { question := da.question, answer := da.answer, fact_check := none,
            sources := da.sources }
    finalizeCall := fun fcd =>
      .ok { question := fcd.question, answer := fcd.answer, sources := fcd.sources }
    saveHistory := fun _ _ _ => .ok "id1" }

/-- `allOkEnv`, except that `conduct_research` raises. -/
def conductFailsEnv : WebEnv :=
  { allOkEnv with conduct := fun _ => .error "boom" }

/-- C2: for every collaborator behaviour, the updates the worker puts on
the queue have non-decreasing progress values and contain exactly one
terminal (`completed` or `error`) update, which is the last one put. -/
theorem worker_updates_monotone_one_terminal (env : WebEnv) (question : String)
    (useLG : Bool) :
    List.Chain' (fun a b => a.progress ≤ b.progress)
        (putsOf (runResearchWithUpdates env question useLG)) ∧
    (putsOf (runResearchWithUpdates env question useLG)).countP isTerminal = 1 ∧
    ∃ u, (putsOf (runResearchWithUpdates env question useLG)).getLast? = some u ∧
      isTerminal u = true := by
  cases useLG
  case true =>
    rcases h1 : env.initWorkflow with e1 | u1
    · simp [runResearchWithUpdates, h1, putsOf, isTerminal, inProgressUpdate,
        errorUpdate, completedUpdate, finishAndSave]
    · rcases h2 : env.runWorkflow question with e2 | res
      · simp [runResearchWithUpdates, h1, h2, putsOf, isTerminal, inProgressUpdate,
          errorUpdate, completedUpdate, finishAndSave]
      · rcases h3 : env.saveHistory question res.answer res.sources with e3 | rid
        · simp [runResearchWithUpdates, h1, h2, h3, putsOf, isTerminal, inProgressUpdate,
            errorUpdate, completedUpdate, finishAndSave]
        · simp [runResearchWithUpdates, h1, h2, h3, putsOf, isTerminal, inProgressUpdate,
            errorUpdate, completedUpdate, finishAndSave]
  case false =>
    rcases h1 : env.initAgents with e1 | u1
    · simp [runResearchWithUpdates, h1, putsOf, isTerminal, inProgressUpdate,
        errorUpdate, completedUpdate, finishAndSave]
    · rcases h2 : env.conduct question with e2 | rr
      · simp [runResearchWithUpdates, h1, h2, putsOf, isTerminal, inProgressUpdate,
          errorUpdate, completedUpdate, finishAndSave]
      · rcases h3 : env.draft rr with e3 | da
        · simp [runResearchWithUpdates, h1, h2, h3, putsOf, isTerminal, inProgressUpdate,
            errorUpdate, completedUpdate, finishAndSave]
        · rcases h4 : env.factCheck da rr with e4 | fc
          · simp [runResearchWithUpdates, h1, h2, h3, h4, putsOf, isTerminal,
              inProgressUpdate, errorUpdate, completedUpdate, finishAndSave]
          · rcases h5 : env.finalizeCall fc with e5 | fa
            · simp [runResearchWithUpdates, h1, h2, h3, h4, h5, putsOf, isTerminal,
                inProgressUpdate, errorUpdate, completedUpdate, finishAndSave]
            · rcases h6 : env.saveHistory question fa.answer fa.sources with e6 | rid
              · simp [runResearchWithUpdates, h1, h2, h3, h4, h5, h6, putsOf, isTerminal,
                  inProgressUpdate, errorUpdate, completedUpdate, finishAndSave]
              · simp [runResearchWithUpdates, h1, h2, h3, h4, h5, h6, putsOf, isTerminal,
                  inProgressUpdate, errorUpdate, completedUpdate, finishAndSave]

/-- C5 counterexample: when `conduct_research` raises, the worker puts
the terminal `error` update without ever calling
`save_research_to_history` — refuting "exactly once per execution,
including the exception path". -/
theorem worker_save_skipped_on_exception_path :
    (runResearchWithUpdates conductFailsEnv "q" false).countP isSaveCall = 0 ∧
    ∃ u, (runResearchWithUpdates conductFailsEnv "q" false).getLast?
        = some (WorkerEvent.put u) ∧ u.status = "error" := by
  constructor
  · rfl
  · exact ⟨errorUpdate "q" "boom", by rfl, by rfl⟩

/-- C5 (amended): the worker calls the history store at most once per
execution; any such call happens before the terminal update (which is
always the last event); and the call happens exactly once whenever
control reaches it — in particular on every execution in which no
collaborator raises. -/
theorem worker_save_at_most_once_before_terminal (env : WebEnv)
    (question : String) (useLG : Bool) :
    (runResearchWithUpdates env question useLG).countP isSaveCall ≤ 1 ∧
    (∃ u, (runResearchWithUpdates env question useLG).getLast?
        = some (WorkerEvent.put u) ∧ isTerminal u = true) ∧
    (runResearchWithUpdates env question useLG).dropLast.countP isSaveCall
      = (runResearchWithUpdates env question useLG).countP isSaveCall ∧
    (reachesSave env question useLG = true →
      (runResearchWithUpdates env question useLG).countP isSaveCall = 1) := by
  cases useLG
  case true =>
    rcases h1 : env.initWorkflow with e1 | u1
    · simp [runResearchWithUpdates, h1, isSaveCall, isTerminal, inProgressUpdate,
        errorUpdate, completedUpdate, finishAndSave, reachesSave]
    · rcases h2 : env.runWorkflow question with e2 | res
      · simp [runResearchWithUpdates, h1, h2, isSaveCall, isTerminal, inProgressUpdate,
          errorUpdate, completedUpdate, finishAndSave, reachesSave]
      · rcases h3 : env.saveHistory question res.answer res.sources with e3 | rid
        · simp [runResearchWithUpdates, h1, h2, h3, isSaveCall, isTerminal,
            inProgressUpdate, errorUpdate, completedUpdate, finishAndSave, reachesSave]
        · simp [runResearchWithUpdates, h1, h2, h3, isSaveCall, isTerminal,
            inProgressUpdate, errorUpdate, completedUpdate, finishAndSave, reachesSave]
  case false =>
    rcases h1 : env.initAgents with e1 | u1
    · simp [runResearchWithUpdates, h1, isSaveCall, isTerminal, inProgressUpdate,
        errorUpdate, completedUpdate, finishAndSave, reachesSave]
    · rcases h2 : env.conduct question with e2 | rr
      · simp [runResearchWithUpdates, h1, h2, isSaveCall, isTerminal, inProgressUpdate,
          errorUpdate, completedUpdate, finishAndSave, reachesSave]
      · rcases h3 : env.draft rr with e3 | da
        · simp [runResearchWithUpdates, h1, h2, h3, isSaveCall, isTerminal,
            inProgressUpdate, errorUpdate, completedUpdate, finishAndSave, reachesSave]
        · rcases h4 : env.factCheck da rr with e4 | fc
          · simp [runResearchWithUpdates, h1, h2, h3, h4, isSaveCall, isTerminal,
              inProgressUpdate, errorUpdate, completedUpdate, finishAndSave, reachesSave]
          · rcases h5 : env.finalizeCall fc with e5 | fa
            · simp [runResearchWithUpdates, h1, h2, h3, h4, h5, isSaveCall, isTerminal,
                inProgressUpdate, errorUpdate, completedUpdate, finishAndSave, reachesSave]
            · rcases h6 : env.saveHistory question fa.answer fa.sources with e6 | rid
              · simp [runResearchWithUpdates, h1, h2, h3, h4, h5, h6, isSaveCall,
                  isTerminal, inProgressUpdate, errorUpdate, completedUpdate,
                  finishAndSave, reachesSave]
              · simp [runResearchWithUpdates, h1, h2, h3, h4, h5, h6, isSaveCall,
                  isTerminal, inProgressUpdate, errorUpdate, completedUpdate,
                  finishAndSave, reachesSave]

/-- C5 witness: on the all-ok execution the history store is called
exactly once. -/
theorem worker_save_at_most_once_before_terminal_witness :
    (runResearchWithUpdates allOkEnv "q" false).countP isSaveCall = 1 :=
  (worker_save_at_most_once_before_terminal allOkEnv "q" false).2.2.2 (by rfl)

/-- A sample terminal result for concrete SSE traces. -/
def sampleResult : ResultRecord :=
  { question := "q", answer := "a", sources := [], status := "success",
    errors := none, id := none }

/-- C6: when the 0.5 s queue read times out, the generator does not
yield a heartbeat and does not keep polling: the shadowed `queue.Empty`
lookup raises `AttributeError`, so the stream yields a `streamError`
event and terminates — a later `completed` update on the queue is never
consumed and the task stays registered. -/
theorem timeout_breaks_stream_instead_of_heartbeat :
    generate "t" {"t"} [QueueRead.timeout, QueueRead.upd (completedUpdate sampleResult)]
      = ([SSEEvent.connected, SSEEvent.streamError queueShadowError], {"t"}) := by
  rfl

/-- After consuming only non-terminal updates and then the terminal one,
the generator removes the task from the registry. -/
theorem generateLoop_registry_after_terminal (taskId : String) (reg : TaskRegistry)
    (t : ProgressUpdate) (rest : List QueueRead) :
    ∀ pre, (∀ r ∈ pre, ∃ u, r = QueueRead.upd u ∧ isTerminal u = false) →
      isTerminal t = true →
      (generateLoop taskId reg (pre ++ QueueRead.upd t :: rest)).2 = reg.erase taskId := by
  intro pre
  induction pre with
  | nil =>
      intro _ ht
      simp [generateLoop, ht]
  | cons r pre ih =>
      intro hpre ht
      obtain ⟨u, rfl, hu⟩ := hpre r (List.mem_cons_self r pre)
      simp only [List.cons_append, generateLoop, hu, Bool.false_eq_true, if_false]
      exact ih (fun r hr => hpre r (List.mem_cons_of_mem _ hr)) ht

/-- C7: once the streaming consumer has consumed the terminal update of a
task, the task is deregistered, and every later subscription to the same
`task_id` gets the not-found (404) response. -/
theorem terminal_event_deregisters_then_not_found
    (taskId : String) (reg : TaskRegistry) (pre rest : List QueueRead)
    (t : ProgressUpdate)
    (hpre : ∀ r ∈ pre, ∃ u, r = QueueRead.upd u ∧ isTerminal u = false)
    (ht : isTerminal t = true) (hmem : taskId ∈ reg) :
    taskId ∉ (researchProgress taskId reg (pre ++ QueueRead.upd t :: rest)).2 ∧
    ∀ reads2,
      (researchProgress taskId
          (researchProgress taskId reg (pre ++ QueueRead.upd t :: rest)).2 reads2).1
        = ProgressResponse.notFound := by
  have hreg : (researchProgress taskId reg (pre ++ QueueRead.upd t :: rest)).2
      = reg.erase taskId := by
    simp [researchProgress, hmem, generate,
      generateLoop_registry_after_terminal taskId reg t rest pre hpre ht]
  constructor
  · rw [hreg]
    exact Finset.not_mem_erase _ _
  · intro reads2
    rw [hreg]
    simp [researchProgress, Finset.not_mem_erase]

/-- C7 witness: a registered task whose queue delivers one non-terminal
and then the `completed` update is deregistered, and re-subscribing is
answered with not-found. -/
theorem terminal_event_deregisters_then_not_found_witness :
    "t" ∉ (researchProgress "t" ({"t"} : TaskRegistry)
        ([QueueRead.upd (inProgressUpdate "starting" "m" 5)] ++
          QueueRead.upd (completedUpdate sampleResult) :: [])).2 ∧
    ∀ reads2,
      (researchProgress "t"
          (researchProgress "t" ({"t"} : TaskRegistry)
            ([QueueRead.upd (inProgressUpdate "starting" "m" 5)] ++
              QueueRead.upd (completedUpdate sampleResult) :: [])).2 reads2).1
        = ProgressResponse.notFound :=
  terminal_event_deregisters_then_not_found "t" {"t"}
    [QueueRead.upd (inProgressUpdate "starting" "m" 5)] []
    (completedUpdate sampleResult)
    (by intro r hr
        refine ⟨inProgressUpdate "starting" "m" 5, ?_, by rfl⟩
        simpa using hr)
    (by rfl) (by simp)

/-- C9 counterexample: `generate_search_queries` builds only three fixed
query variations, so requesting `n = 4` queries returns 3, not 4. -/
theorem generate_search_queries_not_always_n :
    (generate_search_queries "q" 4).length ≠ 4 := by decide

/-- C9 (amended): `generate_search_queries(question, n)` returns an
ordered sequence of exactly `min n 3` query strings — the slice
`queries[:n]` of the fixed three-element variation list. -/
theorem generate_search_queries_count (question : String) (n : Nat) :
    (generate_search_queries question n).length = min n 3 := by
  simp [generate_search_queries]

/-- A fold with `collectStep` over URLs none of which is accepted leaves
the accumulator unchanged. -/
theorem foldl_collectStep_of_no_accept (extract : String → ExtractResult) :
    ∀ (urls : List String) (acc : List ExtractResult × List SourceRef),
      (∀ u ∈ urls, acceptExtract (extract u) = false) →
      urls.foldl (collectStep extract) acc = acc := by
  intro urls
  induction urls with
  | nil => intro acc _; rfl
  | cons u urls ih =>
      intro acc h
      have hu := h u (List.mem_cons_self u urls)
      have hstep : collectStep extract acc u = acc := by
        simp [collectStep, hu]
      rw [List.foldl_cons, hstep]
      exact ih acc (fun v hv => h v (List.mem_cons_of_mem _ hv))

/-- C8: when no discovered URL yields accepted content,
`conduct_research` returns the fixed `"No relevant content found."`
summary with empty sources and raw content, and the full
`simple_main.run_research` pipeline on the same collaborators still
returns a structured record with status `"success"` whose answer is the
one drafted from the degraded summary. -/
theorem no_accepted_content_degrades_to_success
    (searchWeb : String → List SearchResult) (extract : String → ExtractResult)
    (summarize : List ExtractResult → String → String)
    (draftLLM : String → String → String → Except String String)
    (fcLLM : String → String → String → Except String String)
    (finLLM : String → String → String → String → Except String String)
    (question : String)
    (hfail : ∀ url ∈ (uniqueUrls
        ((generate_search_queries question).map searchWeb).flatten).take 5,
      acceptExtract (extract url) = false) :
    conduct_research searchWeb extract summarize question
      = { question := question, summary := "No relevant content found.",
          sources := [], raw_content := [] } ∧
    (runResearchSimple searchWeb extract summarize draftLLM fcLLM finLLM
        question).status = "success" ∧
    (runResearchSimple searchWeb extract summarize draftLLM fcLLM finLLM
        question).sources = [] ∧
    (runResearchSimple searchWeb extract summarize draftLLM fcLLM finLLM
        question).answer
      = (draft_answer draftLLM
          { question := question, summary := "No relevant content found.",
            sources := [], raw_content := [] }).answer := by
  have h0 := foldl_collectStep_of_no_accept extract
    ((uniqueUrls ((generate_search_queries question).map searchWeb).flatten).take 5)
    ([], []) hfail
  have hcr : conduct_research searchWeb extract summarize question
      = { question := question, summary := "No relevant content found.",
          sources := [], raw_content := [] } := by
    simp [conduct_research, h0]
  refine ⟨hcr, ?_, ?_, ?_⟩
  · rfl
  · rcases hdl : draftLLM question "No relevant content found."
        (sourcesTextOrDefault []) with e | c <;>
      simp [runResearchSimple, hcr, draft_answer, fact_check, finalize_answer, hdl]
  · rcases hdl : draftLLM question "No relevant content found."
        (sourcesTextOrDefault []) with e | c <;>
      simp [runResearchSimple, hcr, draft_answer, fact_check, finalize_answer, hdl]

/-- C8 witness: with a search that finds nothing and an extractor that
only errors, the pipeline reports the fixed summary and finishes with
status `"success"`. -/
theorem no_accepted_content_degrades_to_success_witness :
    conduct_research (fun _ => []) (fun u => { url := u, title := "Error", content := "" })
        (fun _ _ => "s") "q"
      = { question := "q", summary := "No relevant content found.",
          sources := [], raw_content := [] } ∧
    (runResearchSimple (fun _ => []) (fun u => { url := u, title := "Error", content := "" })
        (fun _ _ => "s") (fun _ _ _ => .ok "a") (fun _ _ _ => .ok "v")
        (fun _ _ _ _ => .ok "f") "q").status = "success" :=
  have h := no_accepted_content_degrades_to_success (fun _ => [])
    (fun u => { url := u, title := "Error", content := "" }) (fun _ _ => "s")
    (fun _ _ _ => .ok "a") (fun _ _ _ => .ok "v") (fun _ _ _ _ => .ok "f") "q"
    (by intro url hurl; simp [uniqueUrls, generate_search_queries] at hurl)
  ⟨h.1, h.2.1⟩

/-- C10: `split_content` does not terminate on every input: on
`badContent` with `chunk_size = 10` and `chunk_overlap = 5` the loop
never finishes, whatever iteration budget it is given, because from
`start = 2` one iteration emits the chunk `"cde. "` and returns to
`start = 2`. -/
theorem split_content_diverges :
    (∀ fuel, split_content badContent 10 5 fuel = none) ∧
    splitStep badContent 10 5 2 = ("cde. ", 2) := by
  have hstuck : ∀ fuel acc, splitContentFuel badContent 10 5 fuel 2 acc = none := by
    intro fuel
    induction fuel with
    | zero => exact fun acc => splitContentFuel_zero_of_lt (by decide)
    | succ f ih =>
        intro acc
        rw [splitContentFuel_step _ _ _ _ _ _ (by decide),
          (by decide : splitStep badContent 10 5 2 = ("cde. ", 2))]
        exact ih _
  refine ⟨?_, by decide⟩
  intro fuel
  match fuel with
  | 0 => decide
  | 1 => decide
  | (f + 2) =>
      show splitContentFuel badContent 10 5 (f + 2) 0 [] = none
      rw [splitContentFuel_step _ _ _ _ _ _ (by decide),
        (by decide : splitStep badContent 10 5 0 = ("abcde. hij", 5)),
        splitContentFuel_step _ _ _ _ _ _ (by decide),
        (by decide : splitStep badContent 10 5 5 = (". ", 2))]
      exact hstuck f _

end DeepResearch
